import Mathlib

/-!
Shallow embedding of the trading connectivity core of the Forex_Scalper
repository (files `settings.py` and `trading.py`), together with theorems
settling the specification claims about it.

Conventions of the embedding:
* Python floats are modelled as rationals (`ℚ`); the prices and monetary
  amounts involved here are exact decimals, and no claim depends on binary
  floating-point rounding.
* Python values stored in configuration fields are modelled by `PyVal`
  (Python is dynamically typed, and `Settings.load` stores whatever the
  JSON file provides).
* Exceptions are modelled with `Except PyError`.
* The asynchronous callback structure of `trading.py` is modelled as a step
  function on an explicit `TraderState`, driven by a list of inbound
  `Event`s; outbound protobuf requests handed to the transport are
  collected as `Effect`s.
-/

namespace ForexScalper

/-- A dynamically-typed Python value, as stored in configuration fields. -/
inductive PyVal where
  | none
  | str (s : String)
  | num (q : ℚ)
  | bool (b : Bool)
  | list (xs : List PyVal)
  | dict (kvs : List (String × PyVal))

/-- Python exceptions raised by the code under consideration. -/
inductive PyError where
  | attributeError (name : String)
  | runtimeError (msg : String)
  | typeError (msg : String)
deriving DecidableEq

/-- Embeds the `OpenAPISettings` dataclass of `settings.py` (lines 6-24).
These are exactly its fields; `default_ctid_trader_account_id` and
`host_type` are NOT among them. -/
structure OpenAPISettings where
  auth_url : PyVal
  token_url : PyVal
  api_ws_url : PyVal
  client_id : PyVal
  client_secret : PyVal
  default_account_id_str : PyVal
  access_token : PyVal
  refresh_token : PyVal
  token_expiry_time : PyVal

/-- Embeds the `GeneralSettings` dataclass of `settings.py` (lines 27-31). -/
structure GeneralSettings where
  default_symbol : PyVal
  chart_update_interval_ms : PyVal

/-- Embeds the `Settings` dataclass of `settings.py` (lines 33-36). -/
structure Settings where
  openapi : OpenAPISettings
  general : GeneralSettings

/-- Python attribute lookup on an `OpenAPISettings` instance: a dataclass
without `__getattr__` exposes exactly its declared fields; any other name
raises `AttributeError`, which the caller of this function models by
`Option.none`. -/
def OpenAPISettings.getattr (s : OpenAPISettings) : String → Option PyVal
  | "auth_url" => some s.auth_url
  | "token_url" => some s.token_url
  | "api_ws_url" => some s.api_ws_url
  | "client_id" => some s.client_id
  | "client_secret" => some s.client_secret
  | "default_account_id_str" => some s.default_account_id_str
  | "access_token" => some s.access_token
  | "refresh_token" => some s.refresh_token
  | "token_expiry_time" => some s.token_expiry_time
  | _ => Option.none

/-- Embeds the settings reads performed by `Trader.__init__`
(`trading.py` lines 47-70): line 56 evaluates
`self.settings.openapi.default_ctid_trader_account_id`, and — when the
`ctrader_open_api` library imported — line 68 evaluates
`self.settings.openapi.host_type`.  A missing attribute raises
`AttributeError` at that point and construction aborts. -/
def traderInitAttrReads (s : Settings) (use_openapi_lib : Bool) :
    Except PyError (PyVal × Option PyVal) :=
  match s.openapi.getattr "default_ctid_trader_account_id" with
  | Option.none => Except.error (PyError.attributeError "default_ctid_trader_account_id")
  | some v =>
    if use_openapi_lib then
      match s.openapi.getattr "host_type" with
      | Option.none => Except.error (PyError.attributeError "host_type")
      | some h => Except.ok (v, some h)
    else
      Except.ok (v, Option.none)

/-- Python truthiness of an optional string (`s if s else ...`):
`None` and the empty string are falsy. -/
def pyTruthyStr : Option String → Bool
  | Option.none => false
  | some s => s ≠ ""

/-- Outcome of `open(path)` followed by `json.load`: the file may be
missing (`FileNotFoundError`), hold invalid JSON (`json.JSONDecodeError`),
or parse to some JSON value. -/
inductive FileOutcome where
  | missing
  | badJson
  | content (j : PyVal)

/-- The environment variables consulted by `Settings.load`. -/
structure Env where
  ctrader_client_id : Option String
  ctrader_client_secret : Option String

/-- Python `d.get(key, default)`. JSON objects decoded by `json.load` keep
the last occurrence of a duplicated key, hence the reversed search.
Calling `.get` on a non-dict raises `AttributeError`. -/
def dictGetD (j : PyVal) (key : String) (dflt : PyVal) : Except PyError PyVal :=
  match j with
  | PyVal.dict kvs =>
      Except.ok ((((kvs.reverse.find? (fun kv => kv.1 = key)).map Prod.snd)).getD dflt)
  | _ => Except.error (PyError.attributeError "get")

/-- Embeds `Settings.load` (`settings.py` lines 38-80).  The try/except
around `open`/`json.load` maps `missing` and `badJson` to an empty
configuration dict; secrets are taken from the environment when truthy,
falling back lazily to the configuration file; the remaining fields use
the file value or the built-in default. -/
def settingsLoad (file : FileOutcome) (env : Env) : Except PyError Settings := do
  let cfg_data : PyVal :=
    match file with
    | FileOutcome.missing => PyVal.dict []
    | FileOutcome.badJson => PyVal.dict []
    | FileOutcome.content j => j
  let openapi_cfg ← dictGetD cfg_data "openapi" (PyVal.dict [])
  let general_cfg ← dictGetD cfg_data "general" (PyVal.dict [])
  let client_id ←
    if pyTruthyStr env.ctrader_client_id then
      pure (PyVal.str (env.ctrader_client_id.getD ""))
    else
      dictGetD openapi_cfg "client_id" PyVal.none
  let client_secret ←
    if pyTruthyStr env.ctrader_client_secret then
      pure (PyVal.str (env.ctrader_client_secret.getD ""))
    else
      dictGetD openapi_cfg "client_secret" PyVal.none
  let auth_url ← dictGetD openapi_cfg "auth_url"
    (PyVal.str "https://connect.spotware.com/apps/auth")
  let token_url ← dictGetD openapi_cfg "token_url"
    (PyVal.str "https://connect.spotware.com/apps/token")
  let api_ws_url ← dictGetD openapi_cfg "api_ws_url"
    (PyVal.str "wss://demo.ctraderapi.com/")
  let default_account_id_str ← dictGetD openapi_cfg "default_account_id_str" PyVal.none
  let default_symbol ← dictGetD general_cfg "default_symbol" (PyVal.str "EUR/USD")
  let chart_update_interval_ms ← dictGetD general_cfg "chart_update_interval_ms" (PyVal.num 500)
  Except.ok
    { openapi :=
        { auth_url := auth_url
          token_url := token_url
          api_ws_url := api_ws_url
          client_id := client_id
          client_secret := client_secret
          default_account_id_str := default_account_id_str
          access_token := PyVal.none
          refresh_token := PyVal.none
          token_expiry_time := PyVal.none }
      general :=
        { default_symbol := default_symbol
          chart_update_interval_ms := chart_update_interval_ms } }

/-! ## The Trader event machine (`trading.py`) -/

/-- Python truthiness of an optional integer (`if self.ctid_trader_account_id:`):
`None` and `0` are falsy. -/
def pyTruthyOptInt : Option ℤ → Bool
  | Option.none => false
  | some n => n ≠ 0

/-- Python `str()` of an optional integer, used in f-string error messages. -/
def pyStrOptInt : Option ℤ → String
  | Option.none => "None"
  | some n => toString n

/-- Outbound protobuf requests handed to `self._client.send` in `trading.py`. -/
inductive Request where
  | appAuthReq (clientId clientSecret : String)
  | accountAuthReq (ctidTraderAccountId : ℤ)
  | getAccountListReq
  | getTraderReq (ctidTraderAccountId : ℤ)
  | pingReq (timestamp : ℤ)
  | subscribeSpotsReq (ctidTraderAccountId symbolId : ℤ)
deriving DecidableEq

/-- Observable side effects of the Trader on its collaborators: requests
handed to the transport, and service/reactor management calls. -/
inductive Effect where
  | send (r : Request)
  | stopService
  | startService
  | startReactorThread
deriving DecidableEq

/-- Inbound protobuf messages dispatched by `Trader._on_message_received`
(`trading.py` lines 121-155), carrying the fields the handlers read. -/
inductive Message where
  | appAuthRes
  | accountAuthRes (ctidTraderAccountId : ℤ)
  | getAccountListRes (ctidTraderAccount : List ℤ)
  | traderRes (ctidTraderAccountId balance equity depositAssetId : ℤ)
  | traderUpdatedEvent (ctidTraderAccountId balance equity depositAssetId : ℤ)
  | spotEvent (symbolId : ℤ) (bid ask : Option ℤ)
  | executionEvent
  | heartbeatEvent
  | pingRes
  | errorRes (errorCode description : String)
deriving DecidableEq

/-- External events driving the Trader: the OpenApiPy client callbacks
(connected / disconnected / message received), the Deferred success
callback attached to the application-auth send, and the errback shared by
all sends (`Trader._handle_send_error`). -/
inductive Event where
  | clientConnected
  | clientDisconnected
  | message (m : Message)
  | appAuthDeferredSuccess
  | sendError (msg : String)
deriving DecidableEq

/-- The mutable attributes of a `Trader` instance (`Trader.__init__`,
`trading.py` lines 47-78), together with the module-level flags
(`USE_OPENAPI_LIB`, `_reactor_installed`) and the settings fields the
methods read.  `client_id`/`client_secret` are the configured credentials
(protobuf string fields; empty string models an unconfigured credential).
`settings_default_ctid` models the runtime attribute
`settings.openapi.default_ctid_trader_account_id` that
`_handle_get_account_list_response` reassigns. -/
structure TraderState where
  client_id : String
  client_secret : String
  settings_default_ctid : Option ℤ
  is_connected : Bool
  is_client_connected : Bool
  last_error : String
  price_history : List ℚ
  history_size : ℕ
  ctid_trader_account_id : Option ℤ
  account_id : Option String
  balance : Option ℚ
  equity : Option ℚ
  margin : Option ℚ
  currency : Option String
  message_id_counter : ℕ
  use_openapi_lib : Bool
  reactor_installed : Bool
  reactor_running : Bool
  reactor_thread_alive : Bool
deriving DecidableEq

/-- The state of a freshly constructed `Trader` (with the real API library
present), as `Trader.__init__` would build it had the settings attribute
reads succeeded: not connected, empty price history of capacity 100, the
account id taken from the configured default. -/
def initTrader (cid secret : String) (defaultCtid : Option ℤ)
    (rInstalled rRunning : Bool) : TraderState :=
  { client_id := cid
    client_secret := secret
    settings_default_ctid := defaultCtid
    is_connected := false
    is_client_connected := false
    last_error := ""
    price_history := []
    history_size := 100
    ctid_trader_account_id := defaultCtid
    account_id := Option.none
    balance := Option.none
    equity := Option.none
    margin := Option.none
    currency := Option.none
    message_id_counter := 1
    use_openapi_lib := true
    reactor_installed := rInstalled
    reactor_running := rRunning
    reactor_thread_alive := false }

/-- Embeds `Trader._send_account_auth_request` (lines 267-284): bails out
setting `_last_error` when the client is not connected, otherwise hands a
`ProtoOAAccountAuthReq` to the transport. -/
def send_account_auth_request (t : TraderState) (ctid : ℤ) : TraderState × List Effect :=
  if ¬t.is_client_connected ∨ ¬t.use_openapi_lib then
    ({ t with last_error := "Cannot send AccountAuthReq: Client not connected." }, [])
  else
    (t, [Effect.send (Request.accountAuthReq ctid)])

/-- Embeds `Trader._send_get_account_list_request` (lines 286-298). -/
def send_get_account_list_request (t : TraderState) : TraderState × List Effect :=
  if ¬t.is_client_connected ∨ ¬t.use_openapi_lib then
    ({ t with last_error := "Cannot send GetAccountListReq: Client not connected." }, [])
  else
    (t, [Effect.send Request.getAccountListReq])

/-- Embeds `Trader._send_get_trader_request` (lines 300-310). -/
def send_get_trader_request (t : TraderState) (ctid : ℤ) : TraderState × List Effect :=
  if ¬t.is_client_connected ∨ ¬t.use_openapi_lib then
    ({ t with last_error := "Cannot send GetTraderReq: Client not connected." }, [])
  else
    (t, [Effect.send (Request.getTraderReq ctid)])

/-- Embeds `Trader._send_ping_request` (lines 312-323): silently does
nothing when the client is not connected, otherwise sends a `ProtoPingReq`
carrying the current timestamp. -/
def send_ping_request (t : TraderState) (timestamp : ℤ) : TraderState × List Effect :=
  if ¬t.is_client_connected ∨ ¬t.use_openapi_lib then
    (t, [])
  else
    (t, [Effect.send (Request.pingReq timestamp)])

/-- Embeds `Trader._on_client_connected` (lines 88-109): records the
client connection, clears the last error, and sends the application-auth
request — unless a credential is missing, in which case it records the
error and stops the service. -/
def on_client_connected (t : TraderState) : TraderState × List Effect :=
  let t1 := { t with is_client_connected := true, last_error := "" }
  if t1.client_id = "" ∨ t1.client_secret = "" then
    ({ t1 with last_error :=
        "Client ID or Secret not configured for ProtoOAApplicationAuthReq. Cannot send Auth Req." },
     if t1.use_openapi_lib then [Effect.stopService] else [])
  else
    (t1, [Effect.send (Request.appAuthReq t1.client_id t1.client_secret)])

/-- Embeds `Trader._on_client_disconnected` (lines 111-119). -/
def on_client_disconnected (t : TraderState) : TraderState × List Effect :=
  ({ t with is_connected := false, is_client_connected := false }, [])

/-- Embeds `Trader._handle_app_auth_response` (lines 158-166): with a
truthy account id, proceed to account auth; otherwise request the account
list. -/
def handle_app_auth_response (t : TraderState) : TraderState × List Effect :=
  if pyTruthyOptInt t.ctid_trader_account_id then
    send_account_auth_request t (t.ctid_trader_account_id.getD 0)
  else
    send_get_account_list_request t

/-- Embeds `Trader._handle_send_error` (lines 168-176). -/
def handle_send_error (t : TraderState) (msg : String) : TraderState :=
  { t with
    last_error := "Failed to send message or process response: " ++ msg
    is_connected := false }

/-- Embeds `Trader._handle_account_auth_response` (lines 179-191): only a
response whose `ctidTraderAccountId` equals the selected account id marks
the Trader connected (and triggers a trader-details request); any other
response records a failure and forces `is_connected` to `False`. -/
def handle_account_auth_response (t : TraderState) (respCtid : ℤ) :
    TraderState × List Effect :=
  if t.ctid_trader_account_id = some respCtid then
    let t1 := { t with is_connected := true, last_error := "" }
    send_get_trader_request t1 respCtid
  else
    ({ t with
        last_error := "Account authorization failed for " ++
          pyStrOptInt t.ctid_trader_account_id ++ "."
        is_connected := false }, [])

/-- Embeds `Trader._handle_get_account_list_response` (lines 193-217):
an empty list is an error; with a truthy configured default the default is
kept when present in the list and otherwise replaced by the first entry;
without one the first entry is selected; the (possibly updated) settings
attribute is synchronized and the selected account is sent for account
authentication. -/
def handle_get_account_list_response (t : TraderState) (accounts : List ℤ) :
    TraderState × List Effect :=
  match accounts with
  | [] =>
      ({ t with last_error := "No trading accounts found.", is_connected := false }, [])
  | first :: _ =>
      let newCtid :=
        if pyTruthyOptInt t.ctid_trader_account_id then
          let d := t.ctid_trader_account_id.getD 0
          if accounts.contains d then d else first
        else first
      let t1 := { t with ctid_trader_account_id := some newCtid }
      let t2 :=
        if t1.settings_default_ctid = some newCtid then t1
        else { t1 with settings_default_ctid := some newCtid }
      send_account_auth_request t2 newCtid

/-- The hard-coded deposit-asset map of `_handle_trader_response`
(line 229): `{1: "USD", 2: "EUR", 3: "GBP"}` with `str(id)` as fallback. -/
def asset_map (assetId : ℤ) : String :=
  if assetId = 1 then "USD"
  else if assetId = 2 then "EUR"
  else if assetId = 3 then "GBP"
  else toString assetId

/-- Embeds `Trader._handle_trader_response` (lines 219-234): updates the
account summary when the response is for the selected account (amounts
arrive in cents). -/
def handle_trader_response (t : TraderState) (respCtid bal eqty depositAssetId : ℤ) :
    TraderState × List Effect :=
  if t.ctid_trader_account_id = some respCtid then
    ({ t with
        balance := some ((bal : ℚ) / 100)
        equity := some ((eqty : ℚ) / 100)
        currency := some (asset_map depositAssetId)
        account_id := some (toString respCtid) }, [])
  else
    (t, [])

/-- Embeds `Trader._handle_trader_updated_event` (lines 236-250), whose
body mirrors `_handle_trader_response`. -/
def handle_trader_updated_event (t : TraderState) (respCtid bal eqty depositAssetId : ℤ) :
    TraderState × List Effect :=
  if t.ctid_trader_account_id = some respCtid then
    ({ t with
        balance := some ((bal : ℚ) / 100)
        equity := some ((eqty : ℚ) / 100)
        currency := some (asset_map depositAssetId)
        account_id := some (toString respCtid) }, [])
  else
    (t, [])

/-- Embeds `Trader._handle_spot_event` (lines 253-259): the body is a
`pass` stub — the event's symbol id, bid and ask are discarded and neither
`price_history` nor any last-price store is updated. -/
def handle_spot_event (t : TraderState) (_symbolId : ℤ) (_bid _ask : Option ℤ) :
    TraderState × List Effect :=
  (t, [])

/-- Embeds `Trader._handle_execution_event` (lines 261-264): logs and
`pass`es. -/
def handle_execution_event (t : TraderState) : TraderState × List Effect :=
  (t, [])

/-- Embeds the dispatcher `Trader._on_message_received` (lines 121-155). -/
def on_message_received (t : TraderState) (m : Message) : TraderState × List Effect :=
  match m with
  | Message.appAuthRes => (t, [])
  | Message.accountAuthRes c => handle_account_auth_response t c
  | Message.getAccountListRes accs => handle_get_account_list_response t accs
  | Message.traderRes c b q a => handle_trader_response t c b q a
  | Message.traderUpdatedEvent c b q a => handle_trader_updated_event t c b q a
  | Message.spotEvent sid bid ask => handle_spot_event t sid bid ask
  | Message.executionEvent => handle_execution_event t
  | Message.heartbeatEvent => (t, [])
  | Message.pingRes => (t, [])
  | Message.errorRes code desc =>
      ({ t with last_error := "API Error: " ++ code ++ " - " ++ desc }, [])

/-- One inbound event processed by the Trader's callback structure. -/
def step (t : TraderState) (e : Event) : TraderState × List Effect :=
  match e with
  | Event.clientConnected => on_client_connected t
  | Event.clientDisconnected => on_client_disconnected t
  | Event.message m => on_message_received t m
  | Event.appAuthDeferredSuccess => handle_app_auth_response t
  | Event.sendError msg => (handle_send_error t msg, [])

/-- Runs the Trader over a list of inbound events, in arrival order. -/
def run (t : TraderState) : List Event → TraderState
  | [] => t
  | e :: es => run (step t e).1 es

/-! ## Public interface of the Trader -/

/-- What `Trader.connect` (lines 327-383) produces: the boolean it
returns, the service/reactor effects performed, and the updated state. -/
structure ConnectResult where
  retVal : Bool
  effects : List Effect
  state : TraderState
deriving DecidableEq

/-- Embeds `Trader.connect` (lines 327-383).  `libClientConnected` is the
OpenApiPy client's own `connected` attribute consulted at line 335 (true
once the transport is up, also mid-handshake); `startExc` models an
exception escaping the `try` block around `startService`.  Without the
library the method fakes a connection; when already connected (or the
client's transport is up) it returns `True` immediately and starts
nothing; otherwise it starts the service, starts a reactor thread as a
fallback when the installed reactor is not running, and returns `True`
optimistically — or `False` when reactor support is missing or the start
raised. -/
def connect (t : TraderState) (libClientConnected : Bool) (startExc : Option String) :
    ConnectResult :=
  if ¬t.use_openapi_lib then
    { retVal := true
      effects := []
      state := { t with
        last_error := "ctrader-open-api library not installed."
        is_connected := true } }
  else if t.is_connected ∨ libClientConnected then
    { retVal := true, effects := [], state := t }
  else
    match startExc with
    | some m =>
        { retVal := false
          effects := []
          state := { t with
            last_error := "Failed to start OpenApiPy Client service: " ++ m
            is_connected := false } }
    | Option.none =>
        if t.reactor_installed then
          if t.reactor_running then
            { retVal := true, effects := [Effect.startService], state := t }
          else if ¬t.reactor_thread_alive then
            { retVal := true
              effects := [Effect.startService, Effect.startReactorThread]
              state := { t with reactor_thread_alive := true } }
          else
            { retVal := true, effects := [Effect.startService], state := t }
        else
          { retVal := false
            effects := [Effect.startService]
            state := { t with
              last_error := "Twisted reactor not available or not running." } }

/-- Embeds `Trader.get_connection_status` (lines 414-418): the pair
`(self.is_connected, self._last_error)`. -/
def get_connection_status (t : TraderState) : Bool × String :=
  (t.is_connected, t.last_error)

/-- What `Trader.start_heartbeat` (lines 420-437) actually sets up: it
constructs a `LoopingCall(self._send_ping_request)` when fully connected
with reactor support, but the `lc.start(30)` call is commented out, so
`pingInterval` — the interval a started loop would ping at — is always
`Option.none`, and no request is sent. -/
structure HeartbeatResult where
  loopingCallCreated : Bool
  pingInterval : Option ℚ
  effects : List Effect
deriving DecidableEq

/-- Embeds `Trader.start_heartbeat` (lines 420-437). -/
def start_heartbeat (t : TraderState) : HeartbeatResult :=
  if t.use_openapi_lib ∧ t.is_connected then
    if t.reactor_installed then
      { loopingCallCreated := true, pingInterval := Option.none, effects := [] }
    else
      { loopingCallCreated := false, pingInterval := Option.none, effects := [] }
  else
    { loopingCallCreated := false, pingInterval := Option.none, effects := [] }

/-- Python `round(q, 5)` over exact decimals.  (CPython rounds half to
even; this model rounds half away from zero via Mathlib's `round` — all
inputs used in theorems below are non-ties, where the two agree.) -/
def pyRound5 (q : ℚ) : ℚ := (round (q * 100000) : ℤ) / 100000

/-- The mock price expression `round(random.uniform(1.10, 1.20) +
random.uniform(-0.005, 0.005), 5)` of `Trader.get_market_price`, with the
two random draws made explicit inputs. -/
def mockPrice (r1 r2 : ℚ) : ℚ := pyRound5 (r1 + r2)

/-- Embeds `Trader.get_market_price` (lines 472-487).  Without the
library it returns a fresh mock price; not connected it raises
`RuntimeError`; otherwise it returns the last entry of `price_history`
when non-empty and a fresh mock price when empty. -/
def get_market_price (t : TraderState) (_symbol : String) (r1 r2 : ℚ) :
    Except PyError ℚ :=
  if ¬t.use_openapi_lib then
    Except.ok (mockPrice r1 r2)
  else if ¬t.is_connected then
    Except.error (PyError.runtimeError
      "Cannot fetch market data: Not connected to cTrader Open API.")
  else
    match t.price_history.getLast? with
    | some p => Except.ok p
    | Option.none => Except.ok (mockPrice r1 r2)

/-- Embeds `Trader.subscribe_to_symbol_prices` (lines 489-505). -/
def subscribe_to_symbol_prices (t : TraderState) (_symbol_name : String)
    (ctid_account_id symbol_id : ℤ) : TraderState × List Effect :=
  if ¬t.is_client_connected ∨ ¬t.use_openapi_lib then
    (t, [])
  else
    (t, [Effect.send (Request.subscribeSpotsReq ctid_account_id symbol_id)])

/-- Embeds `Trader.place_market_order` (lines 508-539).  Without the
library it logs a mock order; not fully connected (or with a falsy
account id) it raises `RuntimeError`; otherwise the body is a placeholder
that logs and `pass`es — the size is never validated and no
`ProtoOANewOrderReq` is handed to the transport. -/
def place_market_order (t : TraderState) (_symbol _side : String)
    (_size_in_lots : ℚ) (_tp_pips _sl_pips : Option ℚ) :
    Except PyError (List Effect) :=
  if ¬t.use_openapi_lib then
    Except.ok []
  else if ¬t.is_connected ∨ ¬pyTruthyOptInt t.ctid_trader_account_id then
    Except.error (PyError.runtimeError
      "Not connected or account not authorized for placing order.")
  else
    Except.ok []

/-- Embeds `Trader.get_price_history` (lines 541-542): a copy of
`self.price_history`. -/
def get_price_history (t : TraderState) : List ℚ :=
  t.price_history

/-! ## Helper lemmas about the event machine -/

/-- `e` is a successful account-auth response matching the account id
currently selected by `t` — the only kind of event that can set
`is_connected`. -/
def matchesAccountAuth (t : TraderState) : Event → Bool
  | Event.message (Message.accountAuthRes c) => t.ctid_trader_account_id == some c
  | _ => false

/-- Some event of the trace is, at the moment it is processed, a
successful account-auth response matching the then-selected account id. -/
def matchingAuthIn (t : TraderState) : List Event → Bool
  | [] => false
  | e :: es => matchesAccountAuth t e || matchingAuthIn (step t e).1 es

theorem step_price_history (t : TraderState) (e : Event) :
    (step t e).1.price_history = t.price_history := by
  cases e with
  | clientConnected =>
      simp only [step, on_client_connected]
      split <;> rfl
  | clientDisconnected => rfl
  | appAuthDeferredSuccess =>
      simp only [step, handle_app_auth_response, send_account_auth_request,
        send_get_account_list_request]
      split <;> split <;> rfl
  | sendError msg => rfl
  | message m =>
      cases m with
      | appAuthRes => rfl
      | accountAuthRes c =>
          simp only [step, on_message_received, handle_account_auth_response,
            send_get_trader_request]
          split
          · split <;> rfl
          · rfl
      | getAccountListRes accs =>
          cases accs with
          | nil => rfl
          | cons first rest =>
              simp only [step, on_message_received, handle_get_account_list_response,
                send_account_auth_request]
              (repeat' split) <;> rfl
      | traderRes c b q a =>
          simp only [step, on_message_received, handle_trader_response]
          split <;> rfl
      | traderUpdatedEvent c b q a =>
          simp only [step, on_message_received, handle_trader_updated_event]
          split <;> rfl
      | spotEvent sid bid ask => rfl
      | executionEvent => rfl
      | heartbeatEvent => rfl
      | pingRes => rfl
      | errorRes code desc => rfl

theorem run_price_history (tr : List Event) :
    ∀ t : TraderState, (run t tr).price_history = t.price_history := by
  induction tr with
  | nil => intro t; rfl
  | cons e es ih =>
      intro t
      have h := ih (step t e).1
      simp only [run] at h ⊢
      rw [h, step_price_history]

theorem step_is_connected_true (t : TraderState) (e : Event)
    (h : (step t e).1.is_connected = true) :
    t.is_connected = true ∨ matchesAccountAuth t e = true := by
  cases e with
  | clientConnected =>
      left
      simp only [step, on_client_connected] at h
      split at h <;> exact h
  | clientDisconnected =>
      simp only [step, on_client_disconnected] at h
      simp at h
  | appAuthDeferredSuccess =>
      left
      simp only [step, handle_app_auth_response, send_account_auth_request,
        send_get_account_list_request] at h
      split at h <;> split at h <;> exact h
  | sendError msg =>
      simp only [step, handle_send_error] at h
      simp at h
  | message m =>
      cases m with
      | appAuthRes => exact Or.inl h
      | accountAuthRes c =>
          simp only [step, on_message_received, handle_account_auth_response,
            send_get_trader_request] at h
          split at h
          · rename_i hc
            right
            simp [matchesAccountAuth, hc]
          · simp at h
      | getAccountListRes accs =>
          left
          cases accs with
          | nil =>
              simp only [step, on_message_received,
                handle_get_account_list_response] at h
              simp at h
          | cons first rest =>
              simp only [step, on_message_received, handle_get_account_list_response,
                send_account_auth_request] at h
              (repeat' split at h) <;> exact h
      | traderRes c b q a =>
          left
          simp only [step, on_message_received, handle_trader_response] at h
          split at h <;> exact h
      | traderUpdatedEvent c b q a =>
          left
          simp only [step, on_message_received, handle_trader_updated_event] at h
          split at h <;> exact h
      | spotEvent sid bid ask => exact Or.inl h
      | executionEvent => exact Or.inl h
      | heartbeatEvent => exact Or.inl h
      | pingRes => exact Or.inl h
      | errorRes code desc => exact Or.inl h

theorem run_is_connected_true (tr : List Event) :
    ∀ t : TraderState, (run t tr).is_connected = true →
      t.is_connected = true ∨ matchingAuthIn t tr = true := by
  induction tr with
  | nil => exact fun t h => Or.inl h
  | cons e es ih =>
      intro t h
      rcases ih (step t e).1 h with h2 | h2
      · rcases step_is_connected_true t e h2 with h3 | h3
        · exact Or.inl h3
        · right
          simp [matchingAuthIn, h3]
      · right
        simp [matchingAuthIn, h2]

/-- Events that presuppose an established transport connection: the
connected callback and every inbound message or Deferred reply. -/
def isTransportEvent : Event → Bool
  | Event.clientConnected => true
  | Event.message _ => true
  | Event.appAuthDeferredSuccess => true
  | Event.clientDisconnected => false
  | Event.sendError _ => false

theorem matchingAuthIn_transport (tr : List Event) :
    ∀ t : TraderState, matchingAuthIn t tr = true →
      ∃ e ∈ tr, isTransportEvent e = true := by
  induction tr with
  | nil => intro t h; simp [matchingAuthIn] at h
  | cons e es ih =>
      intro t h
      simp only [matchingAuthIn, Bool.or_eq_true] at h
      rcases h with h | h
      · refine ⟨e, List.mem_cons_self e es, ?_⟩
        cases e with
        | message m => rfl
        | clientConnected => rfl
        | appAuthDeferredSuccess => rfl
        | clientDisconnected => simp [matchesAccountAuth] at h
        | sendError msg => simp [matchesAccountAuth] at h
      · obtain ⟨x, hx, hxt⟩ := ih _ h
        exact ⟨x, List.mem_cons_of_mem e hx, hxt⟩

/-! ## Claim theorems -/

/-- **C8.** Constructing a `Trader` from any `Settings` value — in
particular from any value `Settings.load` produces — raises
`AttributeError`: `Trader.__init__` (trading.py line 56) reads
`settings.openapi.default_ctid_trader_account_id`, which is not a field of
the `OpenAPISettings` dataclass (it defines `default_account_id_str`
instead); with the API library present the later `host_type` read
(line 68) would fail likewise, but execution already aborts at the first
read. -/
theorem trader_init_raises_attribute_error (s : Settings) (use_openapi_lib : Bool) :
    traderInitAttrReads s use_openapi_lib =
      Except.error (PyError.attributeError "default_ctid_trader_account_id") := rfl

/-- **C10.** `Settings.load` is total over configuration-file failures:
for a missing file as well as for invalid JSON it raises nothing and
returns the `Settings` built from the hard-coded defaults and the
`CTRADER_CLIENT_ID`/`CTRADER_CLIENT_SECRET` environment variables. -/
theorem settings_load_total_on_config_errors (env : Env) :
    settingsLoad FileOutcome.missing env =
      Except.ok
        { openapi :=
            { auth_url := PyVal.str "https://connect.spotware.com/apps/auth"
              token_url := PyVal.str "https://connect.spotware.com/apps/token"
              api_ws_url := PyVal.str "wss://demo.ctraderapi.com/"
              client_id :=
                if pyTruthyStr env.ctrader_client_id then
                  PyVal.str (env.ctrader_client_id.getD "")
                else PyVal.none
              client_secret :=
                if pyTruthyStr env.ctrader_client_secret then
                  PyVal.str (env.ctrader_client_secret.getD "")
                else PyVal.none
              default_account_id_str := PyVal.none
              access_token := PyVal.none
              refresh_token := PyVal.none
              token_expiry_time := PyVal.none }
          general :=
            { default_symbol := PyVal.str "EUR/USD"
              chart_update_interval_ms := PyVal.num 500 } } ∧
    settingsLoad FileOutcome.badJson env =
      settingsLoad FileOutcome.missing env := by
  constructor
  · cases h1 : pyTruthyStr env.ctrader_client_id <;>
      cases h2 : pyTruthyStr env.ctrader_client_secret <;>
      simp only [settingsLoad, dictGetD, h1, h2] <;> rfl
  · rfl

/-- **C2 (code evaluation).** The spot-event handler
`Trader._handle_spot_event` is a `pass` stub, so no inbound event ever
reaches the price store: for every sequence of inbound events the stored
price history stays empty and `Trader.get_price_history` returns `[]`
instead of the last `N` event prices (the claimed FIFO content fails
already after a single price event; the capacity bound holds only
vacuously). -/
theorem price_history_never_updated
    (cid secret : String) (d : Option ℤ) (ri rr : Bool) (tr : List Event) :
    get_price_history (run (initTrader cid secret d ri rr) tr) = [] := by
  unfold get_price_history
  rw [run_price_history]
  rfl

/-- **C9 (code evaluation).** `Trader.start_heartbeat` constructs a
`LoopingCall(self._send_ping_request)` but the `lc.start(30)` call is
commented out: in every state, no periodic ping is scheduled at any
interval and no request is handed to the transport, so no liveness probe
is ever sent while the session is Ready. -/
theorem start_heartbeat_schedules_no_ping (t : TraderState) :
    (start_heartbeat t).pingInterval = Option.none ∧
    (start_heartbeat t).effects = [] := by
  unfold start_heartbeat
  (repeat' split) <;> exact ⟨rfl, rfl⟩

/-- A concrete Trader that completed the full handshake for account 5:
transport connected, app-auth Deferred fired, matching account-auth
response processed. -/
def authedTrader : TraderState :=
  run (initTrader "id" "secret" (some 5) true true)
    [Event.clientConnected, Event.appAuthDeferredSuccess,
     Event.message (Message.accountAuthRes 5)]

/-- `authedTrader` after one further inbound spot price event. -/
def authedTraderAfterSpot : TraderState :=
  run authedTrader [Event.message (Message.spotEvent 1 (some 110500) (some 110501))]

/-- **C1 (code evaluation).** In a connected state for which no price has
ever been stored (here even after a spot event arrived — the handler
discards it), `Trader.get_market_price` does not report the price as
unavailable: it returns a fabricated success value, namely the rounded sum
of the two `random.uniform` draws (here 1.15 and 0.001, giving 1.151) —
a number unrelated to any market data. -/
theorem get_market_price_fabricates_without_data :
    authedTraderAfterSpot.is_connected = true ∧
    authedTraderAfterSpot.price_history = [] ∧
    get_market_price authedTraderAfterSpot "EURUSD" (23/20) (1/1000) =
      Except.ok (1151/1000) := by
  refine ⟨by decide, by decide, ?_⟩
  have h1 : authedTraderAfterSpot.use_openapi_lib = true := by decide
  have h2 : authedTraderAfterSpot.is_connected = true := by decide
  have h3 : authedTraderAfterSpot.price_history = [] := by decide
  simp only [get_market_price, h1, h2, h3, mockPrice, pyRound5]
  norm_num

/-- **C5 (code evaluation).** With the session fully connected and an
account selected, `Trader.place_market_order` accepts `size_in_lots = -1`
without any validation error: it returns normally (the body is a
placeholder) — so no local rejection happens; the only part of the claim
the code meets is that no payload is handed to the transport. -/
theorem place_market_order_accepts_nonpositive_size :
    authedTrader.is_connected = true ∧
    place_market_order authedTrader "EURUSD" "buy" (-1) Option.none Option.none =
      Except.ok [] := ⟨by decide, rfl⟩

/-- **C3 (counterexample).** On a freshly constructed Trader whose
endpoint is unreachable — the return value of `connect` is computed before
any network interaction, so this is its value in such a run —
`Trader.connect` returns `True` (success), not a failure result with a
Transport-kind error: the method only initiates the asynchronous attempt
and returns optimistically. -/
theorem connect_unreachable_returns_success :
    (connect (initTrader "id" "secret" Option.none true true) false
        Option.none).retVal = true := rfl

/-- **C3 (amended).** When the endpoint is unreachable, `Trader.connect`
(with reactor support installed) nonetheless returns `True`, merely
initiating the attempt; the failure is visible only through
`Trader.get_connection_status`, which keeps reporting `connected = false`
throughout any run in which no transport connection is ever established
(no connected callback, no inbound message). -/
theorem connect_initiates_and_status_stays_disconnected
    (cid secret : String) (d : Option ℤ) (rr : Bool) (tr : List Event)
    (h : ∀ e ∈ tr, isTransportEvent e = false) :
    (connect (initTrader cid secret d true rr) false Option.none).retVal = true ∧
    (get_connection_status
        (run (connect (initTrader cid secret d true rr) false Option.none).state
          tr)).1 = false := by
  have hst : (connect (initTrader cid secret d true rr) false
      Option.none).state.is_connected = false := by
    cases rr <;> rfl
  constructor
  · cases rr <;> rfl
  · show (run (connect (initTrader cid secret d true rr) false
        Option.none).state tr).is_connected = false
    by_contra hc
    rw [Bool.not_eq_false] at hc
    rcases run_is_connected_true tr _ hc with h1 | h1
    · rw [hst] at h1
      exact Bool.noConfusion h1
    · obtain ⟨e, he, het⟩ := matchingAuthIn_transport tr _ h1
      rw [h e he] at het
      exact Bool.noConfusion het

/-- Witness for the amended C3 statement: a run whose only events are a
send error and the disconnect callback. -/
theorem connect_initiates_and_status_stays_disconnected_witness :
    (connect (initTrader "id" "secret" Option.none true true) false
        Option.none).retVal = true ∧
    (get_connection_status
        (run (connect (initTrader "id" "secret" Option.none true true) false
            Option.none).state
          [Event.sendError "Connection refused", Event.clientDisconnected])).1 =
      false :=
  connect_initiates_and_status_stays_disconnected "id" "secret" Option.none true
    [Event.sendError "Connection refused", Event.clientDisconnected] (by decide)

/-- **C4.** Calling `Trader.connect` while already fully connected
(`is_connected`, i.e. Ready) or while the OpenApiPy client's transport is
already up (mid-handshake, `self._client.connected`) returns `True`
immediately, performs no service or reactor effect — in particular it does
not start a second connection attempt or transport — and leaves the state
unchanged. -/
theorem connect_idempotent_when_connected_or_in_progress
    (t : TraderState) (libClientConnected : Bool) (startExc : Option String)
    (hlib : t.use_openapi_lib = true)
    (h : t.is_connected = true ∨ libClientConnected = true) :
    connect t libClientConnected startExc =
      { retVal := true, effects := [], state := t } := by
  rcases h with h | h <;> simp [connect, hlib, h]

/-- Witness for C4: the fully handshaken `authedTrader`. -/
theorem connect_idempotent_witness :
    connect authedTrader false Option.none =
      { retVal := true, effects := [], state := authedTrader } :=
  connect_idempotent_when_connected_or_in_progress authedTrader false Option.none
    (by decide) (Or.inl (by decide))

/-- **C6.** With the real API library, `is_connected` — the flag
`Trader.get_connection_status` reports — is `true` only if the run
processed a successful account-auth response whose `ctidTraderAccountId`
equalled the then-selected account id: a merely transport-connected or
only app-authenticated session is never reported as connected, for any
event sequence from a freshly constructed Trader. -/
theorem connected_only_after_matching_account_auth
    (cid secret : String) (d : Option ℤ) (ri rr : Bool) (tr : List Event)
    (h : (run (initTrader cid secret d ri rr) tr).is_connected = true) :
    matchingAuthIn (initTrader cid secret d ri rr) tr = true := by
  rcases run_is_connected_true tr _ h with h1 | h1
  · simp [initTrader] at h1
  · exact h1

/-- Witness for C6: the handshake trace for account 5 reaches
`is_connected = true` and indeed contains the matching account-auth
response. -/
theorem connected_only_after_matching_account_auth_witness :
    matchingAuthIn (initTrader "id" "secret" (some 5) true true)
      [Event.clientConnected, Event.appAuthDeferredSuccess,
       Event.message (Message.accountAuthRes 5)] = true :=
  connected_only_after_matching_account_auth "id" "secret" (some 5) true true
    [Event.clientConnected, Event.appAuthDeferredSuccess,
     Event.message (Message.accountAuthRes 5)] (by decide)

/-- The account-selection rule as the claim words it: when a configured
default account id exists and is present in the returned list it is kept;
when it is absent — or when no account id is configured — the first
returned account is used. (Spec-side definition, to be compared with the
embedded handler.) -/
def claimedSelection (configured : Option ℤ) (accounts : List ℤ) (first : ℤ) : ℤ :=
  match configured with
  | Option.none => first
  | some d => if d ∈ accounts then d else first

/-- **C7.** With the client connected: when no account id is selected,
the app-auth response handler issues a `ProtoOAGetAccountListReq`
(account discovery); and for any non-empty returned account list
`first :: rest`, the list-response handler stores exactly the account the
claim describes — the configured default when present in the list, the
first returned account otherwise — and submits precisely that account for
account authentication.  (`some 0` is excluded: Python's truthiness check
treats account id `0` like `None`.) -/
theorem account_discovery_selects_and_authenticates
    (t : TraderState) (first : ℤ) (rest : List ℤ)
    (hconn : t.is_client_connected = true) (hlib : t.use_openapi_lib = true)
    (hz : t.ctid_trader_account_id ≠ some 0) :
    (t.ctid_trader_account_id = Option.none →
      (handle_app_auth_response t).2 = [Effect.send Request.getAccountListReq]) ∧
    (handle_get_account_list_response t (first :: rest)).1.ctid_trader_account_id =
      some (claimedSelection t.ctid_trader_account_id (first :: rest) first) ∧
    (handle_get_account_list_response t (first :: rest)).2 =
      [Effect.send (Request.accountAuthReq
        (claimedSelection t.ctid_trader_account_id (first :: rest) first))] := by
  refine ⟨fun hnone => ?_, ?_, ?_⟩
  · simp [handle_app_auth_response, send_get_account_list_request,
      pyTruthyOptInt, hnone, hconn, hlib]
  all_goals
    cases hc : t.ctid_trader_account_id with
    | none =>
        simp only [handle_get_account_list_response, send_account_auth_request,
          pyTruthyOptInt, claimedSelection, hc, hconn, hlib]
        (repeat' split) <;> simp_all
    | some d =>
        have hd0 : d ≠ 0 := fun h => hz (h ▸ hc)
        simp only [handle_get_account_list_response, send_account_auth_request,
          pyTruthyOptInt, claimedSelection, hc, hd0, hconn, hlib]
        by_cases hm : d ∈ first :: rest <;>
          simp only [hm, if_true, if_false] <;>
          (repeat' split) <;> simp_all [List.elem_iff]

/-- A Trader with no account id configured whose transport just came up. -/
def discoveryTrader : TraderState :=
  run (initTrader "id" "secret" Option.none true true) [Event.clientConnected]

/-- Witness for C7 at `discoveryTrader` (no account configured) with
account list `[7, 8]`: discovery is issued and account 7 is selected and
submitted for authentication. -/
theorem account_discovery_witness :
    (discoveryTrader.ctid_trader_account_id = Option.none →
      (handle_app_auth_response discoveryTrader).2 =
        [Effect.send Request.getAccountListReq]) ∧
    (handle_get_account_list_response discoveryTrader
        (7 :: [8])).1.ctid_trader_account_id =
      some (claimedSelection discoveryTrader.ctid_trader_account_id (7 :: [8]) 7) ∧
    (handle_get_account_list_response discoveryTrader (7 :: [8])).2 =
      [Effect.send (Request.accountAuthReq
        (claimedSelection discoveryTrader.ctid_trader_account_id (7 :: [8]) 7))] :=
  account_discovery_selects_and_authenticates discoveryTrader 7 [8]
    (by decide) (by decide) (by decide)

end ForexScalper
